import Mathlib

/-!
Verification of the Visper repository's ingestion-and-status pipeline.

This file shallowly embeds the relevant Python code (src/utils.py,
src/github_client.py, src/vectara_client.py, src/main.py,
src/agent_router.py) as executable Lean definitions and proves the
spec's testable properties about them.

Conventions of the embedding:
  - Python dicts holding file data become Lean structures; a key that may
    be absent (Python dict.get with default) becomes an Option field or
    the documented default.
  - HTTP calls are modelled by their responses: a function of the
    response status and decoded body.  Raised HTTPException values become
    Except.error carrying the status code and error kind.
  - Nondeterministic external outcomes (whether an individual Vectara
    submission succeeds, whether document preparation throws) are passed
    in as oracle arguments.
  - base64 / UTF-8 decoding of GitHub file payloads is abstracted as an
    Option String field of the payload: some means the bytes decode to
    text, none models UnicodeDecodeError.
-/

namespace Visper

/-! ## String helpers mirroring the Python standard library -/

/-- Drop a literal character-list prefix, mirroring an anchored literal
regex fragment: returns the remainder when `p` heads `s`. -/
def dropPfx : List Char → List Char → Option (List Char)
  | [], s => some s
  | _ :: _, [] => none
  | c :: p, d :: s => if c = d then dropPfx p s else none

/-- Like `dropPfx` but falls back to the unchanged input when the prefix
is absent, mirroring an optional regex group such as `(?:www\.)?`. -/
def dropOpt (p : List Char) (s : List Char) : List Char :=
  match dropPfx p s with
  | some r => r
  | none => s

/-- Model of Python `str.lower()`, character by character (the file names
and pattern constants compared in the source are ASCII, where
`Char.toLower` agrees with Python). -/
def lowerStr (s : String) : String :=
  String.mk (s.data.map Char.toLower)

/-- Model of Python `os.path.splitext(filename)[1]` for a plain file name
(no path separator): the extension starting at the last dot, except that
a name whose characters before that dot are all dots has no extension. -/
def splitextExt (name : String) : String :=
  let rev := name.data.reverse
  let suff := rev.takeWhile (fun c => c ≠ '.')
  if suff.length = rev.length then ""
  else
    let before := rev.drop (suff.length + 1)
    if before.all (fun c => c = '.') then ""
    else String.mk ('.' :: suff.reverse)

/-- Model of Python `str.rstrip('/')`: remove every trailing slash. -/
def rstripSlash (cs : List Char) : List Char :=
  (cs.reverse.dropWhile (fun c => c = '/')).reverse

/-! ## src/utils.py : parse_github_url -/

/-- Model of the anchored regex
`(?:https?://)?(?:www\.)?github\.com/([^/]+)/([^/]+)` under `re.match`:
each `[^/]+` group greedily captures up to the next slash and must be
nonempty; trailing text is ignored. -/
def matchHttps (s : List Char) : Option (List Char × List Char) :=
  let s1 := match dropPfx "https://".data s with
    | some r => r
    | none => dropOpt "http://".data s
  let s2 := dropOpt "www.".data s1
  match dropPfx "github.com/".data s2 with
  | none => none
  | some rest =>
    let owner := rest.takeWhile (fun c => c ≠ '/')
    if owner.isEmpty then none
    else
      match rest.drop owner.length with
      | '/' :: tail =>
        let repo := tail.takeWhile (fun c => c ≠ '/')
        if repo.isEmpty then none else some (owner, repo)
      | _ => none

/-- Model of the anchored regex `git@github\.com:([^/]+)/([^/]+)` under
`re.match`. -/
def matchSsh (s : List Char) : Option (List Char × List Char) :=
  match dropPfx "git@github.com:".data s with
  | none => none
  | some rest =>
    let owner := rest.takeWhile (fun c => c ≠ '/')
    if owner.isEmpty then none
    else
      match rest.drop owner.length with
      | '/' :: tail =>
        let repo := tail.takeWhile (fun c => c ≠ '/')
        if repo.isEmpty then none else some (owner, repo)
      | _ => none

/-- Embedding of `parse_github_url` (src/utils.py): strip trailing
slashes, strip a final `.git`, try the HTTPS pattern then the SSH
pattern; on no match raise HTTPException with status 400, modelled as
`Except.error 400`.  The source's final `repo.rstrip('/')` is a no-op
because the captured group cannot contain a slash, and is mirrored
anyway. -/
def parse_github_url (url : String) : Except Nat (String × String) :=
  let cs := rstripSlash url.data
  let cs := if cs.reverse.take 4 = [ 't', 'i', 'g', '.'] then cs.take (cs.length - 4) else cs
  match matchHttps cs with
  | some (o, r) => Except.ok (String.mk o, String.mk (rstripSlash r))
  | none =>
    match matchSsh cs with
    | some (o, r) => Except.ok (String.mk o, String.mk (rstripSlash r))
    | none => Except.error 400

/-! ## src/vectara_client.py : ingest_document retry loop -/

/-- One run of the retry loop of `VectaraClient.ingest_document`
(src/vectara_client.py), with `attempt` the index of the current attempt
and the second argument the number of attempts still allowed (initially
`max_retries`).  The oracle `o k` tells whether the `k`-th submission
attempt (0-based) succeeds, modelling `self.client.documents.create`
returning normally versus throwing.  Returns
`(result, attemptsMade, waits)` where `waits` lists the `time.sleep`
durations (seconds) taken between successive attempts. -/
def ingestGo (o : Nat → Bool) (attempt : Nat) : Nat → Bool × Nat × List Nat
  | 0 => (false, attempt, [])
  | remaining + 1 =>
    if o attempt then (true, attempt + 1, [])
    else if remaining = 0 then (false, attempt + 1, [])
    else
      let r := ingestGo o (attempt + 1) remaining
      (r.1, r.2.1, 2 ^ attempt :: r.2.2)

/-- Embedding of `VectaraClient.ingest_document` with its retry loop:
`for attempt in range(max_retries)`, succeed and return True on a normal
`documents.create` call, otherwise sleep `2 ** attempt` seconds unless
this was the final attempt, in which case return False. -/
def ingest_document (o : Nat → Bool) (max_retries : Nat) : Bool × Nat × List Nat :=
  ingestGo o 0 max_retries

/-! ## Search limit handling (src/main.py SearchRequest, src/vectara_client.py search_corpus) -/

/-- Embedding of the pydantic constraint `limit: int = Field(5, ge=1, le=20)`
on `SearchRequest` (src/main.py): a request whose limit violates the
bounds is rejected with a validation error before any handler runs. -/
def searchRequestLimitValid (limit : Int) : Bool :=
  decide (1 ≤ limit) && decide (limit ≤ 20)

/-- Embedding of the limit actually placed in the corpus query by
`VectaraClient.search_corpus` (src/vectara_client.py):
`limit=min(limit, 20)`. -/
def search_corpus_limit (limit : Int) : Int :=
  min limit 20

/-! ## src/github_client.py : GitHubAPIClient -/

/-- The fixed binary-extension blocklist `BINARY_EXTENSIONS`
(src/github_client.py). -/
def BINARY_EXTENSIONS : List String :=
  [".jpg", ".jpeg", ".png", ".gif", ".bmp", ".svg", ".ico", ".webp",
   ".pdf", ".zip", ".tar", ".gz", ".rar", ".7z",
   ".exe", ".dll", ".so", ".dylib",
   ".mp3", ".mp4", ".avi", ".mov", ".wmv", ".flv",
   ".ttf", ".woff", ".woff2", ".eot",
   ".class", ".jar", ".war",
   ".pyc", ".pyo"]

/-- Embedding of `GitHubAPIClient.should_ignore_file`: the lowercased
`splitext` extension is looked up in the binary blocklist. -/
def should_ignore_file (filename : String) : Bool :=
  BINARY_EXTENSIONS.contains (lowerStr (splitextExt filename))

/-- Kinds of HTTPException raised by `get_repo_contents`. -/
inductive ErrKind where
  | notFound
  | rateLimit
  | generic
deriving DecidableEq, Repr

/-- An HTTPException as raised by the GitHub client: upstream-derived
status code plus which branch raised it. -/
structure HTTPErr where
  status_code : Nat
  kind : ErrKind
deriving DecidableEq, Repr

/-- The JSON payload of a GitHub file-content response, with base64 /
UTF-8 decoding abstracted: `decoded = some t` models bytes that decode
to the text `t`, `decoded = none` models a `UnicodeDecodeError`;
`hasContent` and `encoding` model the `"content" in data` and
`data.get("encoding") == "base64"` checks; `raw` is the raw string
returned by `data.get("content", "")` when the base64 branch is not
taken (empty when the key is absent). -/
structure FilePayload where
  path : String
  name : String
  type : String
  size : Nat
  hasContent : Bool
  encoding : String
  decoded : Option String
  raw : String
deriving DecidableEq, Repr

/-- A fetched file as returned by the GitHub client: the dict
`{path, name, type, size, content}`; keys the source may omit are
modelled as their `dict.get` defaults (`""` and `0`). -/
structure FileD where
  path : String
  name : String
  type : String
  size : Nat
  content : String
deriving DecidableEq, Repr

/-- Embedding of the status-code handling of
`GitHubAPIClient.get_repo_contents`: 404 raises a not-found
HTTPException, 403 a rate-limit/permission one, any other non-200 a
generic GitHub API error carrying the upstream status; 200 returns the
decoded body. -/
def get_repo_contents {α : Type} (status : Nat) (data : α) : Except HTTPErr α :=
  if status = 404 then Except.error ⟨404, ErrKind.notFound⟩
  else if status = 403 then Except.error ⟨403, ErrKind.rateLimit⟩
  else if status ≠ 200 then Except.error ⟨status, ErrKind.generic⟩
  else Except.ok data

/-- The content-decoding step of `get_file_content`: base64-encoded
content is decoded, substituting a placeholder on `UnicodeDecodeError`;
otherwise the raw `content` value (default `""`) is used. -/
def decodeFileContent (p : FilePayload) : String :=
  if p.hasContent && p.encoding == "base64" then
    match p.decoded with
    | some t => t
    | none => "[Binary content - cannot display as text]"
  else if p.hasContent then p.raw else ""

/-- Embedding of `GitHubAPIClient.get_file_content`: a non-200 response
does not raise — it returns an error placeholder dict
`{path, type: "error", content: "Failed to fetch file: <status>"}`
(absent keys modelled by their `get` defaults); a 200 response returns
the payload fields with decoded content. -/
def get_file_content (status : Nat) (p : FilePayload) (path : String) : FileD :=
  if status ≠ 200 then
    { path := path, name := "", type := "error", size := 0,
      content := "Failed to fetch file: " ++ toString status }
  else
    { path := p.path, name := p.name, type := p.type, size := p.size,
      content := decodeFileContent p }

/-- A GitHub repository tree as seen through directory-listing
responses: a `file` item carries the HTTP status and payload its
content fetch would return; a `dir` item carries the HTTP status of its
own listing request together with the listed entries; `other` models an
item of unknown type, which the walker only warns about. -/
inductive RepoEntry where
  | file (name path : String) (status : Nat) (payload : FilePayload)
  | dir (name path : String) (status : Nat) (entries : List RepoEntry)
  | other (name path : String) (type : String)
deriving Repr

/-- The per-item loop of `GitHubAPIClient.fetch_all_files_recursive`:
binary-extension files are skipped before any fetch, other files are
fetched via `get_file_content`, directories are listed via
`get_repo_contents` (whose HTTPException aborts the whole walk, mirroring
the re-raise in the source's `except HTTPException` clause) and walked
recursively, unknown item types are skipped.  In the `dir` case the
recursive call walks `entries`, which is exactly the list
`get_repo_contents` returned in its `Except.ok`. -/
def walkEntries : List RepoEntry → Except HTTPErr (List FileD)
  | [] => Except.ok []
  | RepoEntry.file name path st p :: rest =>
    if should_ignore_file name then walkEntries rest
    else
      match walkEntries rest with
      | Except.error e => Except.error e
      | Except.ok others => Except.ok (get_file_content st p path :: others)
  | RepoEntry.dir _ _ st entries :: rest =>
    match get_repo_contents st entries with
    | Except.error e => Except.error e
    | Except.ok _ =>
      match walkEntries entries with
      | Except.error e => Except.error e
      | Except.ok sub =>
        match walkEntries rest with
        | Except.error e => Except.error e
        | Except.ok others => Except.ok (sub ++ others)
  | RepoEntry.other _ _ _ :: rest => walkEntries rest

/-- Embedding of `GitHubAPIClient.fetch_all_files_recursive` from the
root: list the root directory, raising on a non-200 listing response,
then walk the entries. -/
def fetch_all_files_recursive (status : Nat) (entries : List RepoEntry) :
    Except HTTPErr (List FileD) :=
  match get_repo_contents status entries with
  | Except.error e => Except.error e
  | Except.ok items => walkEntries items

/-- All file items of a repository tree, in walk order, with their
listing name, requested path and content-fetch response — the files the
walker would consider before any binary-extension filtering. -/
def allFileNodes : List RepoEntry → List (String × String × Nat × FilePayload)
  | [] => []
  | RepoEntry.file name path st p :: rest => (name, path, st, p) :: allFileNodes rest
  | RepoEntry.dir _ _ _ entries :: rest => allFileNodes entries ++ allFileNodes rest
  | RepoEntry.other _ _ _ :: rest => allFileNodes rest

/-! ## src/vectara_client.py : file filtering and ingestion -/

/-- The allowlist `TEXT_CODE_EXTENSIONS` (src/vectara_client.py),
matched against the lowercased `splitext` extension. -/
def TEXT_CODE_EXTENSIONS : List String :=
  [".py", ".js", ".ts", ".jsx", ".tsx", ".java", ".cpp", ".c", ".h", ".hpp",
   ".cs", ".rb", ".go", ".rs", ".swift", ".kt", ".scala", ".php", ".sh",
   ".bash", ".zsh", ".fish", ".ps1", ".r", ".lua", ".perl", ".pl",
   ".html", ".htm", ".css", ".scss", ".sass", ".less", ".vue", ".svelte",
   ".json", ".xml", ".yaml", ".yml", ".toml", ".ini", ".cfg", ".conf",
   ".env", ".properties", ".config",
   ".md", ".markdown", ".rst", ".txt", ".adoc", ".tex",
   ".gradle", ".maven", ".sbt", ".cmake", ".make", "makefile",
   ".dockerfile", "dockerfile",
   ".sql", ".graphql", ".prisma"]

/-- The set `README_PATTERNS` (src/vectara_client.py), matched against
the lowercased file name. -/
def README_PATTERNS : List String :=
  ["readme.md", "readme", "readme.txt", "readme.rst",
   "read_me.md", "read_me", "read.me", "readme.markdown"]

/-- The extensionless file names `should_ingest_file` accepts
(src/vectara_client.py). -/
def NO_EXTENSION_FILENAMES : List String :=
  ["dockerfile", "makefile", "jenkinsfile", "vagrantfile",
   "gemfile", "rakefile", "procfile", "license", "gitignore"]

/-- Model of the Python substring test `needle in hay`. -/
def containsSub (needle : List Char) : List Char → Bool
  | [] => needle.isEmpty
  | c :: rest => needle.isPrefixOf (c :: rest) || containsSub needle rest

/-- Model of `len(content.strip())`: the length after removing leading
and trailing whitespace. -/
def pyStripLen (s : String) : Nat :=
  ((s.data.dropWhile Char.isWhitespace).reverse.dropWhile Char.isWhitespace).length

/-- Embedding of `VectaraClient.should_ingest_file`: reject empty
content, binary/fetch-error sentinels, and content under 10 characters
after stripping; accept extensionless files only from a fixed name list;
otherwise require the lowercased extension to be in the text/code
allowlist. -/
def should_ingest_file (f : FileD) : Bool :=
  let filename := lowerStr f.name
  let content := f.content
  if content == "" || "[Binary content".data.isPrefixOf content.data
      || containsSub "Failed to fetch".data content.data then false
  else if pyStripLen content < 10 then false
  else
    let extension := lowerStr (splitextExt filename)
    if extension == "" then NO_EXTENSION_FILENAMES.contains filename
    else TEXT_CODE_EXTENSIONS.contains extension

/-- A file name counts as README-like when its lowercased name is in
`README_PATTERNS`. -/
def isReadme (f : FileD) : Bool :=
  README_PATTERNS.contains (lowerStr f.name)

/-- Embedding of `VectaraClient.filter_readme_files`: split the input
into README-like and other files (preserving order); with no README the
input is returned unchanged; otherwise the README whose lowercased path
is exactly `readme.md` — or, failing that, the first README — is kept
and appended after the non-README files. -/
def filter_readme_files (files : List FileD) : List FileD :=
  let readme_files := files.filter isReadme
  let other_files := files.filter (fun f => ! isReadme f)
  match readme_files with
  | [] => files
  | r :: _ =>
    let selected :=
      match readme_files.find? (fun f => lowerStr f.path == "readme.md") with
      | some root => root
      | none => r
    other_files ++ [selected]

/-- The statistics dict returned by `VectaraClient.ingest_files`. -/
structure IngestStats where
  total_files : Nat
  ingested : Nat
  skipped : Nat
  failed : Nat
deriving DecidableEq, Repr

/-- The per-document loop of `ingest_files` over the listed outcomes:
`Except.error` models `prepare_document` (or the call into
`ingest_document`) throwing, counted as failed; `Except.ok b` models
`ingest_document` returning `b`, counted as ingested when true and
failed when false.  Returns `(successful, failed)`. -/
def ingestLoopCount : List (Except Unit Bool) → Nat × Nat
  | [] => (0, 0)
  | o :: rest =>
    let r := ingestLoopCount rest
    match o with
    | Except.ok true => (r.1 + 1, r.2)
    | Except.ok false => (r.1, r.2 + 1)
    | Except.error _ => (r.1, r.2 + 1)

/-- Embedding of `VectaraClient.ingest_files`: filter READMEs, keep only
files passing `should_ingest_file`, then either report everything as
skipped (when nothing survives) or ingest each survivor — with `outcome
i` the oracle for the `i`-th survivor — and report
`total_files = len(files)`, the success and failure counts, and
`skipped = len(files) - len(files_to_ingest)`. -/
def ingest_files (files : List FileD) (outcome : Nat → Except Unit Bool) : IngestStats :=
  let files_to_ingest := (filter_readme_files files).filter should_ingest_file
  if files_to_ingest.isEmpty then
    { total_files := files.length, ingested := 0, skipped := files.length, failed := 0 }
  else
    let counts := ingestLoopCount ((List.range files_to_ingest.length).map outcome)
    { total_files := files.length, ingested := counts.1,
      skipped := files.length - files_to_ingest.length, failed := counts.2 }

/-! ## src/vectara_client.py : the corpus query built by search_corpus -/

/-- The `GenerationParameters` built by `search_corpus` when RAG is
enabled. -/
structure GenerationParams where
  generation_preset_name : String
  max_used_search_results : Int
  enable_factual_consistency_score : Bool
  citations_style : String
deriving DecidableEq, Repr

/-- The single-corpus `SearchCorporaParameters` built by
`search_corpus`; the lexical-interpolation constant 0.025 is modelled
exactly as the rational 25/1000. -/
structure SearchParams where
  corpus_key : String
  metadata_filter : Option String
  lexical_interpolation : Rat
  limit : Int
  offset : Int
deriving DecidableEq, Repr

/-- The full query issued to the Vectara SDK by `search_corpus`. -/
structure QueryRequest where
  query : String
  search : SearchParams
  generation : Option GenerationParams
deriving DecidableEq, Repr

/-- Embedding of the request construction in
`VectaraClient.search_corpus`: `filter_str` is assigned `None`
unconditionally (the filter-building code is commented out in the
source, and `repo_filter` / `owner_filter` are only logged), generation
parameters are attached when RAG is enabled with
`max_used_search_results = min(limit, 10)`, and the search parameters
carry `metadata_filter = filter_str`, `limit = min(limit, 20)` and
`offset = 0`. -/
def search_corpus_request (corpus_key query : String) (limit : Int)
    (repo_filter owner_filter : Option String) (enable_rag : Bool) : QueryRequest :=
  let filter_str : Option String := none
  let _ := repo_filter
  let _ := owner_filter
  let generation_params : Option GenerationParams :=
    if enable_rag then
      some { generation_preset_name := "vectara-summary-ext-v1.2.0",
             max_used_search_results := min limit 10,
             enable_factual_consistency_score := true,
             citations_style := "none" }
    else none
  { query := query,
    search := { corpus_key := corpus_key, metadata_filter := filter_str,
                lexical_interpolation := 25 / 1000,
                limit := min limit 20, offset := 0 },
    generation := generation_params }

/-! ## src/main.py video_status and src/agent_router.py status writing -/

/-- The JSON status file as a record of optional keys (a missing key is
`none`). -/
structure StatusData where
  status : Option String
  gcs_uri : Option String
  public_url : Option String
  updated_at : Option String
deriving DecidableEq, Repr

/-- The `VideoStatusResponse` model returned by the `/video-status`
endpoint. -/
structure VideoStatusResponse where
  status : String
  gcs_uri : Option String
  public_url : Option String
  updated_at : Option String
deriving DecidableEq, Repr

/-- Embedding of the `video_status` endpoint (src/main.py): with no
status file it returns status `"pending"`; with a file it echoes
`data.get("status", "unknown")`, `gcs_uri`, `public_url` and
`updated_at` verbatim from the file. -/
def video_status (statusFile : Option StatusData) : VideoStatusResponse :=
  match statusFile with
  | none => { status := "pending", gcs_uri := none, public_url := none, updated_at := none }
  | some d =>
    { status := d.status.getD "unknown", gcs_uri := d.gcs_uri,
      public_url := d.public_url, updated_at := d.updated_at }

/-- Embedding of the public-URL derivation in
`agent_router.handle_response`: drop the `gs://` scheme, split at the
first slash into bucket and object (`split("/", 1)` raising — hence
`None` — when no slash remains), and build
`https://storage.googleapis.com/<bucket>/<object>`. -/
def derive_public_url (uploaded_uri : String) : Option String :=
  let without_scheme := uploaded_uri.data.drop 5
  let bucket := without_scheme.takeWhile (fun c => c ≠ '/')
  if bucket.length = without_scheme.length then none
  else
    some (String.mk ("https://storage.googleapis.com/".data ++ bucket
      ++ '/' :: without_scheme.drop (bucket.length + 1)))

/-- Embedding of the completed-status payload written by
`agent_router.handle_response` after a successful upload to
`uploaded_uri`: status `"completed"`, the URI verbatim, the derived
public URL, and a timestamp. -/
def write_status_payload (uploaded_uri now : String) : StatusData :=
  { status := some "completed", gcs_uri := some uploaded_uri,
    public_url := derive_public_url uploaded_uri, updated_at := some now }

/-! ## src/main.py fetch_repository handler -/

/-- Outcome of the `ingest_files` call inside the handler: a normal
return, an `HTTPException` (e.g. missing Vectara credentials), or any
other exception. -/
inductive IngestOutcome where
  | ok (stats : IngestStats)
  | httpExc (detail : String)
  | exc (msg : String)
deriving DecidableEq, Repr

/-- The `vectara_ingestion` field of the handler's response: statistics
on success, `{status: "skipped", reason}` when ingestion raised an
HTTPException, `{status: "error", error}` for any other exception. -/
inductive VectaraIngestionField where
  | stats (s : IngestStats)
  | skipped (reason : String)
  | errored (error : String)
deriving DecidableEq, Repr

/-- How the handler's try/except around Vectara ingestion turns the
ingestion outcome into the `vectara_ingestion` summary: both exception
branches are caught, never re-raised. -/
def vectara_stats_of : IngestOutcome → VectaraIngestionField
  | IngestOutcome.ok s => VectaraIngestionField.stats s
  | IngestOutcome.httpExc d => VectaraIngestionField.skipped d
  | IngestOutcome.exc m => VectaraIngestionField.errored m

/-- The `RepoResponse` returned by `POST /fetch-repo`. -/
structure RepoResponse where
  owner : String
  repo : String
  total_files : Nat
  files : List FileD
  vectara_ingestion : VectaraIngestionField
deriving Repr

/-- Result of one run of the `fetch_repository` handler: the HTTP
response (an `Except.error` is a raised HTTPException status) and
whether the background `agent_router.py` process was spawned. -/
structure FetchRepoResult where
  response : Except Nat RepoResponse
  agent_spawned : Bool
deriving Repr

/-- Embedding of the `fetch_repository` handler (src/main.py): a URL
parse failure re-raises its HTTPException; any exception from the
recursive fetch is re-raised as HTTP 500; the ingestion outcome is
caught into the `vectara_ingestion` summary without aborting; the agent
launch is then always attempted — succeeding exactly when
`agent_router.py` exists next to the handler and `subprocess.Popen`
succeeds (`agent_path_exists` and `popen_ok`), with launch failures
swallowed — and the handler returns the fetched files together with the
summary. -/
def fetch_repository (parse : Except Nat (String × String))
    (fetchResult : Except Nat (List FileD)) (ingest : IngestOutcome)
    (agent_path_exists : Bool) (popen_ok : Bool) : FetchRepoResult :=
  match parse with
  | Except.error code => { response := Except.error code, agent_spawned := false }
  | Except.ok (owner, repo) =>
    match fetchResult with
    | Except.error _ => { response := Except.error 500, agent_spawned := false }
    | Except.ok all_files =>
      let vectara_stats := vectara_stats_of ingest
      let spawned := agent_path_exists && popen_ok
      { response := Except.ok
          { owner := owner, repo := repo, total_files := all_files.length,
            files := all_files, vectara_ingestion := vectara_stats },
        agent_spawned := spawned }

/-! ## Helper lemmas -/

/-- The per-document loop counts every listed outcome as exactly one of
ingested or failed. -/
theorem ingestLoopCount_sum (l : List (Except Unit Bool)) :
    (ingestLoopCount l).1 + (ingestLoopCount l).2 = l.length := by
  induction l with
  | nil => rfl
  | cons o rest ih =>
    cases o with
    | ok b => cases b <;> simp [ingestLoopCount] <;> omega
    | error e => simp [ingestLoopCount]; omega

/-- Splitting a list by a Boolean predicate preserves its length. -/
theorem filter_length_split (p : FileD → Bool) (l : List FileD) :
    (l.filter p).length + (l.filter (fun f => ! p f)).length = l.length := by
  induction l with
  | nil => rfl
  | cons a t ih => cases h : p a <;> simp [List.filter_cons, h] <;> omega

/-- README de-duplication never lengthens the file list. -/
theorem length_filter_readme_le (files : List FileD) :
    (filter_readme_files files).length ≤ files.length := by
  unfold filter_readme_files
  cases hr : files.filter isReadme with
  | nil => simp
  | cons r rs =>
    have h1 := filter_length_split isReadme files
    rw [hr] at h1
    simp only [List.length_cons] at h1
    simp
    omega

/-! ## Theorems -/

/-- C7: `parse_github_url` maps both the HTTPS form
`https://github.com/octocat/Hello-World.git` and the SSH form
`git@github.com:octocat/Hello-World.git` to `("octocat", "Hello-World")`,
and rejects `not-a-valid-url` with an invalid-format client error
(HTTP 400). -/
theorem parse_github_url_spec :
    parse_github_url "https://github.com/octocat/Hello-World.git"
        = Except.ok ("octocat", "Hello-World") ∧
    parse_github_url "git@github.com:octocat/Hello-World.git"
        = Except.ok ("octocat", "Hello-World") ∧
    parse_github_url "not-a-valid-url" = Except.error 400 :=
  ⟨by rfl, by rfl, by rfl⟩

/-- C4 counterexample: an individual file fetch that receives HTTP 404
does not raise a not-found error: the recursive fetch completes
normally, including the file as a placeholder entry of type `"error"`
with content `"Failed to fetch file: 404"` in its returned list. -/
theorem github_file_404_counterexample :
    fetch_all_files_recursive 200
      [RepoEntry.file "x.py" "src/x.py" 404
        { path := "src/x.py", name := "x.py", type := "file", size := 3,
          hasContent := true, encoding := "base64", decoded := some "a=1", raw := "" }]
      = Except.ok
          [{ path := "src/x.py", name := "", type := "error", size := 0,
             content := "Failed to fetch file: 404" }] := by
  have h1 : should_ignore_file "x.py" = false := by decide
  simp [fetch_all_files_recursive, get_repo_contents, walkEntries, h1]
  decide

/-- C4 amended: directory-listing failures are surfaced as exceptions
and never retried — HTTP 404 raises a not-found error, HTTP 403 a
rate-limit/permission error, any other non-200 a generic GitHub API
error carrying the upstream status, and a 200 listing returns its body —
while an individual file fetch never raises: any non-200 file response
yields a placeholder entry of type `"error"` with content
`"Failed to fetch file: <status>"` that is included in the results. -/
theorem github_errors_amended {α : Type} (status : Nat) (data : α)
    (p : FilePayload) (path : String) :
    (status = 404 →
      get_repo_contents status data = Except.error ⟨404, ErrKind.notFound⟩) ∧
    (status = 403 →
      get_repo_contents status data = Except.error ⟨403, ErrKind.rateLimit⟩) ∧
    (status ≠ 404 → status ≠ 403 → status ≠ 200 →
      get_repo_contents status data = Except.error ⟨status, ErrKind.generic⟩) ∧
    (status = 200 → get_repo_contents status data = Except.ok data) ∧
    (status ≠ 200 →
      get_file_content status p path
        = { path := path, name := "", type := "error", size := 0,
            content := "Failed to fetch file: " ++ toString status }) := by
  refine ⟨?_, ?_, ?_, ?_, ?_⟩ <;> intros <;> simp_all [get_repo_contents, get_file_content]

/-- C4 witness: the amended error-mapping theorem applied to HTTP
status 500. -/
theorem github_errors_amended_witness :
    get_repo_contents 500 (0 : Nat) = Except.error ⟨500, ErrKind.generic⟩ ∧
    get_file_content 500
        { path := "a.py", name := "a.py", type := "file", size := 1,
          hasContent := true, encoding := "base64", decoded := some "x", raw := "" }
        "a.py"
      = { path := "a.py", name := "", type := "error", size := 0,
          content := "Failed to fetch file: " ++ toString 500 } :=
  ⟨(github_errors_amended 500 (0 : Nat)
      { path := "a.py", name := "a.py", type := "file", size := 1,
        hasContent := true, encoding := "base64", decoded := some "x", raw := "" }
      "a.py").2.2.1 (by decide) (by decide) (by decide),
   (github_errors_amended 500 (0 : Nat)
      { path := "a.py", name := "a.py", type := "file", size := 1,
        hasContent := true, encoding := "base64", decoded := some "x", raw := "" }
      "a.py").2.2.2.2 (by decide)⟩

/-- C5: whenever the recursive walk over a repository tree completes
with a list of files, that list is exactly the non-binary file items in
walk order, each fetched with `get_file_content` — a file item whose
name has a blocklisted binary extension is filtered out before any
fetch and never contributes to the returned list. -/
theorem binary_files_never_fetched :
    ∀ (es : List RepoEntry) (l : List FileD), walkEntries es = Except.ok l →
      l = ((allFileNodes es).filter fun q => ! should_ignore_file q.1).map
            (fun q => get_file_content q.2.2.1 q.2.2.2 q.2.1) := by
  intro es
  induction es using walkEntries.induct <;> intro l h <;>
    simp_all [walkEntries, allFileNodes]

/-- C5 witness: the never-fetched theorem applied to a concrete tree
holding `logo.png` (a blocklisted binary extension) beside `main.py`:
only `main.py` appears in the result. -/
theorem binary_files_never_fetched_witness :
    [({ path := "main.py", name := "main.py", type := "file", size := 8,
        content := "print(1)" } : FileD)]
      = ((allFileNodes
            [RepoEntry.file "logo.png" "logo.png" 200
              { path := "logo.png", name := "logo.png", type := "file", size := 5,
                hasContent := true, encoding := "base64", decoded := none, raw := "" },
             RepoEntry.file "main.py" "main.py" 200
              { path := "main.py", name := "main.py", type := "file", size := 8,
                hasContent := true, encoding := "base64", decoded := some "print(1)",
                raw := "" }]).filter fun q => ! should_ignore_file q.1).map
          (fun q => get_file_content q.2.2.1 q.2.2.2 q.2.1) :=
  binary_files_never_fetched
    [RepoEntry.file "logo.png" "logo.png" 200
      { path := "logo.png", name := "logo.png", type := "file", size := 5,
        hasContent := true, encoding := "base64", decoded := none, raw := "" },
     RepoEntry.file "main.py" "main.py" 200
      { path := "main.py", name := "main.py", type := "file", size := 8,
        hasContent := true, encoding := "base64", decoded := some "print(1)",
        raw := "" }]
    [{ path := "main.py", name := "main.py", type := "file", size := 8,
       content := "print(1)" }]
    (by
      have h1 : should_ignore_file "logo.png" = true := by decide
      have h2 : should_ignore_file "main.py" = false := by decide
      simp [walkEntries, h1, h2]
      decide)

/-- C1 counterexample: with the default `max_retries = 3` and every
submission attempt failing, the waits actually slept between successive
attempts are 1s and 2s only — the loop never sleeps 4s, because no wait
follows the final attempt.  The claimed backoff schedule of waits 1s, 2s
and 4s therefore does not occur. -/
theorem ingest_retry_counterexample :
    (ingest_document (fun _ => false) 3).2.2 = [1, 2] ∧
    (ingest_document (fun _ => false) 3).2.2 ≠ [1, 2, 4] := by
  constructor
  · rfl
  · intro h
    simp [ingest_document, ingestGo] at h

/-- C1 amended: every document submission makes at most 3 attempts; the
backoff waits between successive attempts follow the schedule 1s then 2s
(2^attempt seconds after each failed non-final attempt; no wait follows
the final attempt, so no 4s wait occurs); a document failing twice then
succeeding on the third attempt returns success after exactly 3 attempts,
and one failing on all three attempts returns failure after exactly 3
attempts, with no fourth attempt made. -/
theorem ingest_retry_amended (o : Nat → Bool) :
    (ingest_document o 3).2.1 ≤ 3 ∧
    (ingest_document o 3).2.2 = List.take ((ingest_document o 3).2.1 - 1) [1, 2] ∧
    (o 0 = false → o 1 = false → o 2 = true →
      (ingest_document o 3).1 = true ∧ (ingest_document o 3).2.1 = 3) ∧
    (o 0 = false → o 1 = false → o 2 = false →
      (ingest_document o 3).1 = false ∧ (ingest_document o 3).2.1 = 3) := by
  rcases h0 : o 0 <;> rcases h1 : o 1 <;> rcases h2 : o 2 <;>
    simp [ingest_document, ingestGo, h0, h1, h2]

/-- C1 witness: the amended retry theorem applied to the oracle that
fails the first two attempts and succeeds on the third. -/
theorem ingest_retry_amended_witness :
    (ingest_document (fun n => decide (n = 2)) 3).1 = true ∧
    (ingest_document (fun n => decide (n = 2)) 3).2.1 = 3 :=
  (ingest_retry_amended (fun n => decide (n = 2))).2.2.1 rfl rfl rfl

/-- C3 counterexample: a requested limit of 0 is not clamped up to 1: the
pydantic validator on `SearchRequest.limit` rejects the request outright,
and the cap applied inside `search_corpus` (`min(limit, 20)`) would leave
0 unchanged rather than raising it to 1. -/
theorem search_limit_counterexample :
    searchRequestLimitValid 0 = false ∧
    search_corpus_limit 0 = 0 ∧
    ¬ (1 ≤ search_corpus_limit 0) := by
  refine ⟨rfl, rfl, ?_⟩
  simp [search_corpus_limit]

/-- C3 amended: a requested limit outside the inclusive range [1, 20] is
rejected by request validation rather than clamped; for every accepted
request the limit used for querying equals the requested limit, which
already lies in [1, 20]; `search_corpus` itself additionally caps the
limit at 20 via `min(limit, 20)` but never raises a low limit to 1. -/
theorem search_limit_amended (limit : Int) :
    (searchRequestLimitValid limit = true ↔ 1 ≤ limit ∧ limit ≤ 20) ∧
    (searchRequestLimitValid limit = true → search_corpus_limit limit = limit) ∧
    search_corpus_limit limit ≤ 20 := by
  refine ⟨?_, ?_, min_le_right _ _⟩
  · simp [searchRequestLimitValid]
  · intro h
    simp [searchRequestLimitValid] at h
    exact min_eq_left h.2

/-- Unfolding equation for `filter_readme_files` when at least one
README-like file is present. -/
theorem filter_readme_files_eq (files : List FileD) (r : FileD) (rs : List FileD)
    (hr : files.filter isReadme = r :: rs) :
    filter_readme_files files
      = files.filter (fun f => ! isReadme f)
        ++ [match (r :: rs).find? (fun f => lowerStr f.path == "readme.md") with
            | some root => root
            | none => r] := by
  unfold filter_readme_files
  rw [hr]

/-- C6: on any file list holding at least one README-like file, README
de-duplication keeps all non-README files unchanged, keeps exactly one
README, and — whenever a README whose lowercased path is exactly
`readme.md` is found — that root README is the one kept. -/
theorem readme_dedup (files : List FileD) (h : files.filter isReadme ≠ []) :
    (filter_readme_files files).filter (fun f => ! isReadme f)
        = files.filter (fun f => ! isReadme f) ∧
    ((filter_readme_files files).filter isReadme).length = 1 ∧
    (∀ r, (files.filter isReadme).find? (fun f => lowerStr f.path == "readme.md") = some r →
      (filter_readme_files files).filter isReadme = [r]) := by
  cases hr : files.filter isReadme with
  | nil => exact absurd hr h
  | cons r rs =>
    have heq := filter_readme_files_eq files r rs hr
    have hothers_not : ∀ f ∈ files.filter (fun f => ! isReadme f), (! isReadme f) = true := by
      intro f hf
      simpa using (List.mem_filter.mp hf).2
    have hsel : ∀ sel, isReadme sel = true →
        ((files.filter (fun f => ! isReadme f) ++ [sel]).filter (fun f => ! isReadme f)
            = files.filter (fun f => ! isReadme f) ∧
         (files.filter (fun f => ! isReadme f) ++ [sel]).filter isReadme = [sel]) := by
      intro sel hselr
      constructor
      · rw [List.filter_append]
        simp [hselr, List.filter_eq_self.mpr hothers_not]
      · rw [List.filter_append]
        have hnil : (files.filter (fun f => ! isReadme f)).filter isReadme = [] := by
          rw [List.filter_eq_nil_iff]
          intro f hf
          have := hothers_not f hf
          simp at this
          simp [this]
        simp [hnil, hselr]
    cases hfind : (r :: rs).find? (fun f => lowerStr f.path == "readme.md") with
    | none =>
      simp only [hfind] at heq
      have hrmem : r ∈ files.filter isReadme := by
        rw [hr]
        exact List.mem_cons_self r rs
      have hris : isReadme r = true := (List.mem_filter.mp hrmem).2
      refine ⟨by rw [heq]; exact (hsel r hris).1,
              by rw [heq, (hsel r hris).2]; rfl, ?_⟩
      intro r' hr'
      exact absurd hr' (by simp)
    | some root =>
      simp only [hfind] at heq
      have hrootmem : root ∈ files.filter isReadme := by
        rw [hr]
        exact List.mem_of_find?_eq_some hfind
      have hrootis : isReadme root = true := (List.mem_filter.mp hrootmem).2
      refine ⟨by rw [heq]; exact (hsel root hrootis).1,
              by rw [heq, (hsel root hrootis).2]; rfl, ?_⟩
      intro r' hr'
      cases hr'
      rw [heq]
      exact (hsel root hrootis).2

/-- C6 witness: the de-duplication theorem applied to the list holding
`docs/README.md`, the root `README.md` and a code file: exactly the root
README survives, beside the untouched code file. -/
theorem readme_dedup_witness :
    (filter_readme_files
        [{ path := "docs/README.md", name := "README.md", type := "file", size := 90,
           content := "docs readme" },
         { path := "README.md", name := "README.md", type := "file", size := 100,
           content := "root readme" },
         { path := "main.py", name := "main.py", type := "file", size := 50,
           content := "print(1)" }]).filter isReadme
      = [{ path := "README.md", name := "README.md", type := "file", size := 100,
           content := "root readme" }] ∧
    (filter_readme_files
        [{ path := "docs/README.md", name := "README.md", type := "file", size := 90,
           content := "docs readme" },
         { path := "README.md", name := "README.md", type := "file", size := 100,
           content := "root readme" },
         { path := "main.py", name := "main.py", type := "file", size := 50,
           content := "print(1)" }]).filter (fun f => ! isReadme f)
      = [{ path := "main.py", name := "main.py", type := "file", size := 50,
           content := "print(1)" }] := by
  have h := readme_dedup
    [{ path := "docs/README.md", name := "README.md", type := "file", size := 90,
       content := "docs readme" },
     { path := "README.md", name := "README.md", type := "file", size := 100,
       content := "root readme" },
     { path := "main.py", name := "main.py", type := "file", size := 50,
       content := "print(1)" }]
    (by decide)
  refine ⟨h.2.2 _ (by decide), ?_⟩
  rw [h.1]
  decide

/-- C10: for every input file list and every pattern of per-document
outcomes, the statistics returned by `ingest_files` satisfy
ingested + skipped + failed = total_files, with total_files the length
of the input list. -/
theorem ingest_files_partition (files : List FileD) (outcome : Nat → Except Unit Bool) :
    (ingest_files files outcome).ingested + (ingest_files files outcome).skipped
        + (ingest_files files outcome).failed
      = (ingest_files files outcome).total_files ∧
    (ingest_files files outcome).total_files = files.length := by
  unfold ingest_files
  by_cases h : ((filter_readme_files files).filter should_ingest_file).isEmpty
  · simp [h]
  · have h1 := ingestLoopCount_sum
      ((List.range ((filter_readme_files files).filter should_ingest_file).length).map outcome)
    have h2 : ((filter_readme_files files).filter should_ingest_file).length
        ≤ files.length :=
      le_trans (List.length_filter_le _ _) (length_filter_readme_le files)
    simp only [List.length_map, List.length_range] at h1
    simp [h]
    omega

/-- C3 witness: the amended limit theorem applied to the accepted
request limit 5. -/
theorem search_limit_amended_witness :
    searchRequestLimitValid 5 = true ∧ search_corpus_limit 5 = 5 :=
  ⟨by rfl, (search_limit_amended 5).2.1 (by rfl)⟩

/-- C2 counterexample: for a status file that holds only
`{status: "completed", gcs_uri: "gs://b/o.mp4"}` (no `public_url` key),
the endpoint echoes the file and returns no public URL — it does not
derive `https://storage.googleapis.com/b/o.mp4` from the `gcs_uri`. -/
theorem video_status_counterexample :
    video_status (some { status := some "completed", gcs_uri := some "gs://b/o.mp4",
                         public_url := none, updated_at := none })
      = { status := "completed", gcs_uri := some "gs://b/o.mp4",
          public_url := none, updated_at := none } ∧
    (video_status (some { status := some "completed", gcs_uri := some "gs://b/o.mp4",
                          public_url := none, updated_at := none })).public_url
      ≠ some "https://storage.googleapis.com/b/o.mp4" :=
  ⟨rfl, by decide⟩

/-- C2 amended: with no status file the endpoint returns
`{status: "pending"}`; the endpoint echoes status, `gcs_uri`,
`public_url` and `updated_at` verbatim from the file without deriving
anything; the derivation of the public URL happens in the background
render process when it writes the status file, so the file it writes for
an upload to `gs://b/o.mp4` is served as status `"completed"` with that
`gcs_uri` and with `public_url`
`https://storage.googleapis.com/b/o.mp4`. -/
theorem video_status_amended (uri now : String) :
    video_status none
      = { status := "pending", gcs_uri := none, public_url := none, updated_at := none } ∧
    video_status (some (write_status_payload uri now))
      = { status := "completed", gcs_uri := some uri,
          public_url := derive_public_url uri, updated_at := some now } ∧
    derive_public_url "gs://b/o.mp4" = some "https://storage.googleapis.com/b/o.mp4" :=
  ⟨rfl, rfl, by decide⟩

/-- C8: whenever URL parsing and the recursive fetch succeed, the agent
spawn outcome is a function of the environment alone (`agent_router.py`
existing and `Popen` succeeding) — identical for any two ingestion
outcomes — and the handler returns HTTP 200 with the fetched files and
the ingestion summary, for every ingestion outcome including exceptions
and per-file failures. -/
theorem fetch_repo_spawn_independent (parse : Except Nat (String × String))
    (fetchR : Except Nat (List FileD)) (ing ing2 : IngestOutcome)
    (pe po : Bool) (o r : String) (files : List FileD)
    (hp : parse = Except.ok (o, r)) (hf : fetchR = Except.ok files) :
    (fetch_repository parse fetchR ing pe po).agent_spawned = (pe && po) ∧
    (fetch_repository parse fetchR ing pe po).agent_spawned
        = (fetch_repository parse fetchR ing2 pe po).agent_spawned ∧
    (fetch_repository parse fetchR ing pe po).response
        = Except.ok { owner := o, repo := r, total_files := files.length,
                      files := files, vectara_ingestion := vectara_stats_of ing } := by
  subst hp hf
  simp [fetch_repository]

/-- C8 witness: the spawn-independence theorem applied to a parsed URL,
an empty fetched file list, and an ingestion attempt that raised an
exception. -/
theorem fetch_repo_spawn_independent_witness :
    (fetch_repository (Except.ok ("octocat", "Hello-World")) (Except.ok [])
        (IngestOutcome.exc "boom") true true).agent_spawned = (true && true) ∧
    (fetch_repository (Except.ok ("octocat", "Hello-World")) (Except.ok [])
        (IngestOutcome.exc "boom") true true).agent_spawned
      = (fetch_repository (Except.ok ("octocat", "Hello-World")) (Except.ok [])
          (IngestOutcome.ok { total_files := 0, ingested := 0, skipped := 0, failed := 0 })
          true true).agent_spawned ∧
    (fetch_repository (Except.ok ("octocat", "Hello-World")) (Except.ok [])
        (IngestOutcome.exc "boom") true true).response
      = Except.ok { owner := "octocat", repo := "Hello-World",
                    total_files := List.length ([] : List FileD), files := [],
                    vectara_ingestion := vectara_stats_of (IngestOutcome.exc "boom") } :=
  fetch_repo_spawn_independent (Except.ok ("octocat", "Hello-World")) (Except.ok [])
    (IngestOutcome.exc "boom")
    (IngestOutcome.ok { total_files := 0, ingested := 0, skipped := 0, failed := 0 })
    true true "octocat" "Hello-World" [] rfl rfl

/-- C9: the corpus query built by `search_corpus` is identical for any
two values of the repo/owner filter arguments, and its metadata filter
is always absent, so retrieval cannot depend on the requested
filters. -/
theorem search_filters_not_applied (corpus_key query : String) (limit : Int)
    (rf1 of1 rf2 of2 : Option String) (rag : Bool) :
    search_corpus_request corpus_key query limit rf1 of1 rag
        = search_corpus_request corpus_key query limit rf2 of2 rag ∧
    (search_corpus_request corpus_key query limit rf1 of1 rag).search.metadata_filter
        = none :=
  ⟨rfl, rfl⟩

end Visper
